import Mathlib

/-!
Shallow embedding of the torch_utils repository (audio / data-loading /
training-harness utilities) and proofs about the claims its specification
makes.  Python-level behaviour (exceptions, list indexing, slicing, integer
floor division and modulo) is modelled explicitly; third-party numeric
kernels (FFT, resampling, real sqrt/log10) are kept abstract, since the
repository only composes them.
-/

namespace TorchUtils

/-- Messages of the RuntimeError raised by HDF5Dataset.__getitem__ (the
spec's InvalidInput kind). -/
inductive HMsg
  | notBatchLoader
  | batchTooLarge
  | notDivider
deriving DecidableEq, Repr

/-- The Python exceptions the modelled code paths can raise. -/
inductive PyErr
  | runtimeError (m : HMsg)
  | zeroDivisionError
  | indexError
  | typeError
  | valueError
  | axisError
  | assertionError
  | attributeError
  | unboundLocalError
deriving DecidableEq, Repr

instance {ε α : Type} [DecidableEq ε] [DecidableEq α] : DecidableEq (Except ε α) := fun a b =>
  match a, b with
  | Except.error x, Except.error y =>
    if h : x = y then isTrue (by rw [h]) else isFalse (by simp [h])
  | Except.ok x, Except.ok y =>
    if h : x = y then isTrue (by rw [h]) else isFalse (by simp [h])
  | Except.error _, Except.ok _ => isFalse (by simp)
  | Except.ok _, Except.error _ => isFalse (by simp)

/-- Python list element access `l[i]`: a negative index wraps once from the
end, anything still out of range raises IndexError. -/
def pyListGet (l : List β) (i : ℤ) : Except PyErr β :=
  let j : ℤ := if i < 0 then i + l.length else i
  if 0 ≤ j then
    match l.get? j.toNat with
    | some x => Except.ok x
    | none => Except.error PyErr.indexError
  else Except.error PyErr.indexError

/-- Python slice `l[a:b]` for nonnegative bounds: elements with positions in
`[a, min b (length l))`. -/
def pySlice (l : List β) (a b : ℕ) : List β := (l.take b).drop a

/-- Python `int()` truncation toward zero of an exact rational (models
`int(float_expr)` on the exact value). -/
def pyIntTrunc (q : ℚ) : ℤ := q.num / (q.den : ℤ)

section DataLoading

/-!
### data_loading.py — HDF5Dataset

The container file is modelled as the list of its groups; each group is the
list (in data-layout order) of its arrays, and each array is a list of rows
of an abstract row type `α`.  `group_batch_len` is the stored batch size,
`cache`/`cacheIdx` the single-slot group cache `_cache`/`_cache_idx`.
-/

structure HDF5DatasetM (α : Type) where
  groups : List (List (List α))
  groupBatchLen : ℕ
  cache : Option (List (List α))
  cacheIdx : Option ℤ
deriving DecidableEq, Repr

/-- `HDF5Dataset.__init__`: reads the groups, takes `group_batch_len` from
the first array of the first group, and starts with an empty cache. -/
def mkHDF5 (groups : List (List (List α))) : HDF5DatasetM α :=
  { groups := groups
    groupBatchLen := ((groups.headI).headI).length
    cache := none
    cacheIdx := none }

/-- `HDF5Dataset.__len__`: number of groups times the group batch length. -/
def hdf5Len (ds : HDF5DatasetM α) : ℕ := ds.groups.length * ds.groupBatchLen

/-- `HDF5Dataset._in_cache`: the lookup hits iff `_cache_idx` is set and the
requested index lies in `[_cache_idx, _cache_idx + group_batch_len)`. -/
def inCache (ds : HDF5DatasetM α) (idx : ℤ) : Bool :=
  match ds.cacheIdx with
  | none => false
  | some c => decide (c ≤ idx) && decide (idx < c + ds.groupBatchLen)

/-- `HDF5Dataset._update_cache`: stores the raw requested index in
`_cache_idx` (the source comment says "the starting index of a group", but
the assignment is `self._cache_idx = idx`), then loads the whole group
numbered `idx // group_batch_len` into the cache.  `/` on ℤ is Euclidean
division here, which agrees with Python's floor division for the positive
divisors in play. -/
def updateCache (ds : HDF5DatasetM α) (idx : ℤ) : Except PyErr (HDF5DatasetM α) :=
  match pyListGet ds.groups (idx / ds.groupBatchLen) with
  | Except.ok g => Except.ok { ds with cacheIdx := some idx, cache := some g }
  | Except.error e => Except.error e

/-- A Python value used to index the dataset: an int or a list of ints. -/
inductive PyIndex
  | pyInt (i : ℤ)
  | pyList (l : List ℤ)
deriving DecidableEq, Repr

/-- The body of `HDF5Dataset.__getitem__` after the error-handling block:
refresh the cache on a miss (`idx[0]` drives both the hit test and the
reload), then slice every cached layout array to
`[idx[0] % gbl, idx[-1] % gbl + 1)` (`%` on ℤ is Euclidean, agreeing with
Python's `%` for positive `gbl`).  The mutated dataset is returned
alongside the data. -/
def getitemCore (ds : HDF5DatasetM α) (l : List ℤ) :
    Except PyErr (HDF5DatasetM α × List (List α)) :=
  match (if inCache ds l.headI then Except.ok ds else updateCache ds l.headI) with
  | Except.error e => Except.error e
  | Except.ok ds2 =>
    match ds2.cache with
    | some cached =>
      Except.ok (ds2, cached.map (fun arr =>
        pySlice arr (l.headI % ds.groupBatchLen).toNat
          (l.getLastI % ds.groupBatchLen + 1).toNat))
    | none => Except.error PyErr.typeError

/-- `HDF5Dataset.__getitem__`: validates the index (non-list, too long, or
non-divider lengths raise RuntimeError; the `group_batch_len % len(idx)`
check raises ZeroDivisionError on an empty list), then runs the cache and
slicing body. -/
def getitem (ds : HDF5DatasetM α) (idx : PyIndex) :
    Except PyErr (HDF5DatasetM α × List (List α)) :=
  match idx with
  | PyIndex.pyInt _ => Except.error (PyErr.runtimeError HMsg.notBatchLoader)
  | PyIndex.pyList l =>
    if ds.groupBatchLen < l.length then
      Except.error (PyErr.runtimeError HMsg.batchTooLarge)
    else if l.length = 0 then Except.error PyErr.zeroDivisionError
    else if ds.groupBatchLen % l.length ≠ 0 then
      Except.error (PyErr.runtimeError HMsg.notDivider)
    else getitemCore ds l

/-- A concrete container with two groups of four rows each, one array per
group; row values 0..7 name the sample they carry. -/
def dsEx : HDF5DatasetM ℕ := mkHDF5 [[[0, 1, 2, 3]], [[4, 5, 6, 7]]]

/-- `dsEx` after `__getitem__([2, 3])`: group 0 is cached under the raw
key 2. -/
def dsExAfter : HDF5DatasetM ℕ :=
  { groups := [[[0, 1, 2, 3]], [[4, 5, 6, 7]]]
    groupBatchLen := 4
    cache := some [[0, 1, 2, 3]]
    cacheIdx := some 2 }

/-!
### data_loading.py — get_hdf5_dataloader

The sampler / loader objects are modelled by the configuration they are
constructed with.  The factory's default-batch-size branch reads the local
variable `dataset` before the line that assigns it, so Python raises
UnboundLocalError there.
-/

/-- `WeakShufflingSampler.__init__`: records the batch size, the dataset
length and `n_batches = ceil(len / batch_size)` (the permutation itself is
random and not part of this model). -/
structure WeakShufflingSamplerM where
  batchSize : ℕ
  datasetLength : ℕ
  nBatches : ℕ
deriving DecidableEq, Repr

/-- Constructor of the weak-shuffling sampler (batch size is a positive
int in every reachable call). -/
def mkWeakShufflingSampler (datasetLength batchSize : ℕ) : WeakShufflingSamplerM :=
  { batchSize := batchSize
    datasetLength := datasetLength
    nBatches := (datasetLength + batchSize - 1) / batchSize }

/-- The `BatchSampler(sampler=..., batch_size=..., drop_last=False)` wrapper
built by the factory. -/
structure BatchSamplerM where
  inner : WeakShufflingSamplerM
  batchSize : ℕ
  dropLast : Bool
deriving DecidableEq, Repr

/-- The `DataLoader` the factory returns, by its configuration. -/
structure DataLoaderM where
  datasetGroupBatchLen : ℕ
  datasetLength : ℕ
  sampler : BatchSamplerM
deriving DecidableEq, Repr

/-- `get_hdf5_dataloader`: when `batch_size` is omitted the code runs
`batch_size = dataset.group_batch_len` before `dataset = HDF5Dataset(...)`
is executed, so the local `dataset` is unbound and Python raises
UnboundLocalError; with an explicit batch size it builds the dataset, wraps
the weak-shuffling sampler in a `BatchSampler` with `drop_last=False` and
returns the loader. -/
def getHdf5Dataloader (numGroups groupBatchLen : ℕ) (batchSize : Option ℕ) :
    Except PyErr DataLoaderM :=
  match batchSize with
  | none => Except.error PyErr.unboundLocalError
  | some bs =>
    let dsLen := numGroups * groupBatchLen
    Except.ok
      { datasetGroupBatchLen := groupBatchLen
        datasetLength := dsLen
        sampler :=
          { inner := mkWeakShufflingSampler dsLen bs
            batchSize := bs
            dropLast := false } }

end DataLoading

section ModelTrainer

/-!
### model_trainer.py — checkpoint saving and loading

The checkpoints directory is modelled as a list of file names (paired with
the stored payload where the load path needs it).  Python's distinction
between `str` and `pathlib.Path` values matters to `save_model`'s retention
filter, so both are modelled.
-/

/-- A Python value that is either a `str` or a `pathlib.Path` (identified
by its final name; all paths in play live in `checkpoints/`). -/
inductive PyStrPath
  | pstr (s : String)
  | ppath (s : String)
deriving DecidableEq, Repr

/-- Python `==` between such values: `str == Path` is always `False`,
whatever the text. -/
def pyEqSP : PyStrPath → PyStrPath → Bool
  | PyStrPath.pstr a, PyStrPath.pstr b => a == b
  | PyStrPath.ppath a, PyStrPath.ppath b => a == b
  | _, _ => false

/-- Python `v in container` over a list of str/Path values. -/
def pyMemSP (v : PyStrPath) (l : List PyStrPath) : Bool := l.any (pyEqSP v)

/-- `collections.deque(maxlen=n).append`: keeps the last `n` entries. -/
def dequeAppend (n : ℕ) (buf : List β) (x : β) : List β :=
  let b := buf ++ [x]
  b.drop (b.length - n)

/-- Name suffix test, modelling both `Path.glob("*.ext")` patterns and
`str.endswith`. -/
def strEndsWith (s suffix : String) : Bool := suffix.data.isSuffixOf s.data

/-- Destination argument of `torch.save(obj, f)`: a filesystem path, or a
plain Python object (one without a `write` method). -/
inductive SaveDest
  | filePath (name : String)
  | pyObject
deriving DecidableEq, Repr

/-- `torch.save(obj, f)` over the checkpoints directory: writing to a path
creates the file; handing it a plain object raises AttributeError (no
`write` attribute) before anything reaches the disk. -/
def torchSave (files : List String) (dest : SaveDest) : Except PyErr (List String) :=
  match dest with
  | SaveDest.filePath name => Except.ok (if name ∈ files then files else files ++ [name])
  | SaveDest.pyObject => Except.error PyErr.attributeError

/-- The checkpoints directory and the trainer's retention deque. -/
structure TrainerCkpt where
  files : List String
  saveBuffer : List PyStrPath
deriving DecidableEq, Repr

/-- The name `f"checkpoint_{epoch}.ckpt"` built by `save_model`. -/
def ckptFileName (epoch : ℤ) : String :=
  "checkpoint_" ++ toString epoch ++ ".ckpt"

/-- `ModelTrainer.save_model`: builds the checkpoint path, then calls
`torch.save(self.net.state_dict(), self)` — the destination written in the
source is the trainer object itself, not the path, so the call raises
AttributeError and nothing below runs.  The remainder (modelled for
completeness) appends the Path to the maxlen-5 deque, globs `*.ckpt`, and
unlinks every file whose name — a `str`, compared against the deque of
`Path` objects, hence never a member — is not in the deque. -/
def saveModel (st : TrainerCkpt) (epoch : ℤ) : Except PyErr TrainerCkpt :=
  let name : PyStrPath := PyStrPath.ppath (ckptFileName epoch)
  match torchSave st.files SaveDest.pyObject with
  | Except.error e => Except.error e
  | Except.ok files =>
    let sb := dequeAppend 5 st.saveBuffer name
    let checkpoints := files.filter (fun f => strEndsWith f ".ckpt")
    let targets := checkpoints.filter (fun f => ¬ pyMemSP (PyStrPath.pstr f) sb)
    Except.ok { files := files.filter (fun f => ¬ (f ∈ targets)), saveBuffer := sb }

/-- A checkpoint file on disk: its name and the payload `torch.load` would
return (`epoch`, `model_state`, `optim_state`; the states are abstract
tags). -/
structure CkptFile where
  name : String
  epoch : ℤ
  modelState : ℕ
  optimState : ℕ
deriving DecidableEq, Repr

/-- `ModelTrainer._get_checkpoints`: `checkpoints_dir.glob("*.pt")` — note
the pattern does not match the `.ckpt` files `save_model` names. -/
def getCheckpoints (files : List CkptFile) : List CkptFile :=
  files.filter (fun f => strEndsWith f.name ".pt")

/-- `ModelTrainer._prev_train_exists`: the directory exists (the
constructor creates it) and `_get_checkpoints` found something. -/
def prevTrainExists (files : List CkptFile) : Bool :=
  (getCheckpoints files).length ≠ 0

/-- The prefix of `l` before the first occurrence of `sub` (`sub` nonempty);
this is `str.split(sub)[0]` in Python. -/
def takeBeforeSub (sub : List Char) : List Char → List Char
  | [] => []
  | c :: rest => if sub.isPrefixOf (c :: rest) then [] else c :: takeBeforeSub sub rest

/-- Decimal accumulator for `pyIntOfString`: `none` when a non-digit
appears. -/
def pyIntDigits : List Char → ℕ → Option ℕ
  | [], acc => some acc
  | c :: rest, acc =>
    if c.isDigit then pyIntDigits rest (10 * acc + (c.toNat - 48)) else none

/-- Python `int(str)`: an optional sign and at least one digit parse,
anything else (such as `"3.ckpt"` or an empty string) raises ValueError
(surrounding whitespace, `"+"` and digit underscores, which never occur in
the modelled names, are not modelled). -/
def pyIntOfString (l : List Char) : Except PyErr ℤ :=
  match l with
  | [] => Except.error PyErr.valueError
  | c :: rest =>
    if c = Char.ofNat 45 then
      match rest with
      | [] => Except.error PyErr.valueError
      | _ =>
        match pyIntDigits rest 0 with
        | some n => Except.ok (-(n : ℤ))
        | none => Except.error PyErr.valueError
    else
      match pyIntDigits (c :: rest) 0 with
      | some n => Except.ok (n : ℤ)
      | none => Except.error PyErr.valueError

/-- `int(x.name.split("_")[1].split(".pt")[0])` from `_load_checkpoint`:
missing "_" parts raise IndexError, a non-numeric remainder ValueError. -/
def parseCkptIdx (name : String) : Except PyErr ℤ :=
  match pyListGet (List.splitOn '_' name.data) 1 with
  | Except.error e => Except.error e
  | Except.ok part =>
    pyIntOfString (takeBeforeSub (".pt".data) part)

/-- `np.argmax` over a list of ints: index of the first maximum. -/
def argmaxGo : List ℤ → ℤ → ℕ → ℕ → ℕ
  | [], _, besti, _ => besti
  | y :: ys, best, besti, i =>
    if best < y then argmaxGo ys y i (i + 1) else argmaxGo ys best besti (i + 1)

/-- `np.argmax`; the empty case raises ValueError at the call site. -/
def argmaxList : List ℤ → ℕ
  | [] => 0
  | x :: xs => argmaxGo xs x 0 1

/-- `ModelTrainer._load_checkpoint`: globs `*.pt`, parses the epoch number
out of each file name, picks the file at the argmax, and returns the
payload's `(epoch, model_state, optim_state)`. -/
def loadCheckpoint (files : List CkptFile) : Except PyErr (ℤ × ℕ × ℕ) :=
  let checkpoints := getCheckpoints files
  match checkpoints.mapM (fun f => parseCkptIdx f.name) with
  | Except.error e => Except.error e
  | Except.ok idxs =>
    if checkpoints.length = 0 then Except.error PyErr.valueError
    else
      let chosen := checkpoints.getD (argmaxList idxs) (CkptFile.mk "" 0 0 0)
      Except.ok (chosen.epoch, chosen.modelState, chosen.optimState)

/-- Result of `ModelTrainer.load_model`: the resumed start epoch and the
net's parameter state (`none` = freshly initialized from configuration). -/
structure LoadedModel where
  startEpoch : ℤ
  netState : Option ℕ
deriving DecidableEq, Repr

/-- `ModelTrainer.load_model`: instantiates the model; if a previous
training exists it restores the checkpoint, sets the start epoch, loads the
model state, and then runs `self.optimizer.load_state_dict(...)` —
`self.optimizer` is assigned only after `load_model` returns in
`__init__`, so that access raises AttributeError (the surrounding
`suppress(RuntimeError)` does not catch it).  `optimizerAssigned` records
whether the attribute exists at call time (it is `false` in the
constructor's call). -/
def loadModel (optimizerAssigned : Bool) (files : List CkptFile) :
    Except PyErr LoadedModel :=
  if prevTrainExists files then
    match loadCheckpoint files with
    | Except.error e => Except.error e
    | Except.ok (epoch, modelState, _optimState) =>
      if optimizerAssigned then
        Except.ok { startEpoch := epoch, netState := some modelState }
      else Except.error PyErr.attributeError
  else Except.ok { startEpoch := 0, netState := none }

end ModelTrainer

section Audio

/-!
### audio.py — STFT postprocessing, snr, random_trim

Tensors are nested lists.  `torch.stft` itself is third-party: the model
takes its raw output (frequency bins before frames, as torch returns it)
and embeds only the repository's own postprocessing, which is what the
claim about axis order and frame dropping concerns.
-/

/-- The tensor slice `y[:, 1:]`: every entry of the outermost axis keeps
its position, and from each such entry the first entry of the next axis is
dropped.  Instantiated at a rank-2 value this drops the first column; at a
rank-3 value it drops each matrix's first row. -/
def sliceAxis1From1 (y : List (List δ)) : List (List δ) :=
  y.map (fun z => z.drop 1)

/-- `_stft_istft_core` after `torch.stft` on a 1-D input signal: the raw
rank-2 result `(freq_bins, frames)` is transposed to `(frames, freq_bins)`
and then `y[:, 1:]` is applied. -/
def stftPost1d (raw : List (List β)) : List (List β) :=
  sliceAxis1From1 raw.transpose

/-- `_stft_istft_core` after `torch.stft` on a 2-D batch input: the raw
rank-3 result `(batch, freq_bins, frames)` is transposed on its last two
axes and then `y[:, 1:]` is applied. -/
def stftPost2d (raw : List (List (List β))) : List (List (List β)) :=
  sliceAxis1From1 (raw.map (fun m => m.transpose))

/-- Modelled from the spec: "transpose the result so the axis order becomes
(…, frames, frequency-bins); then DROP the first output frame", for a 1-D
input (rank-2 raw STFT). -/
def stftPostSpec1d (raw : List (List β)) : List (List β) :=
  raw.transpose.drop 1

/-- Modelled from the spec: the same frame-dropping postprocessing for a
2-D batch input (rank-3 raw STFT): the first frame of every batch entry is
dropped. -/
def stftPostSpec2d (raw : List (List (List β))) : List (List (List β)) :=
  (raw.map (fun m => m.transpose)).map (fun m => m.drop 1)

/-- An array/tensor value of rank 0 to 3 over scalars `β`. -/
inductive NdArr (β : Type)
  | d0 (v : β)
  | d1 (v : List β)
  | d2 (m : List (List β))
  | d3 (c : List (List (List β)))
deriving DecidableEq, Repr

/-- `len(x.shape)`. -/
def ndim : NdArr β → ℕ
  | NdArr.d0 _ => 0
  | NdArr.d1 _ => 1
  | NdArr.d2 _ => 2
  | NdArr.d3 _ => 3

/-- `x.shape[-1]` (0-d values never reach it on the modelled paths). -/
def lastAxisLen : NdArr β → ℕ
  | NdArr.d0 _ => 0
  | NdArr.d1 v => v.length
  | NdArr.d2 m => (m.headI).length
  | NdArr.d3 c => ((c.headI).headI).length

/-- Elementwise map over an array. -/
def mapN (f : β → β) : NdArr β → NdArr β
  | NdArr.d0 v => NdArr.d0 (f v)
  | NdArr.d1 v => NdArr.d1 (v.map f)
  | NdArr.d2 m => NdArr.d2 (m.map (fun r => r.map f))
  | NdArr.d3 c => NdArr.d3 (c.map (fun m => m.map (fun r => r.map f)))

/-- The scalar operations `audio.py` borrows from the numeric backends:
the model is parametric in them, since the repository only composes them
(1e-12 is `db`'s epsilon; `ofN` embeds the integer constants and axis
lengths). -/
structure ScalarOps (β : Type) where
  add : β → β → β
  sub : β → β → β
  mul : β → β → β
  div : β → β → β
  conj : β → β
  sqrt : β → β
  log10 : β → β
  ofN : ℕ → β
  eps : β

/-- Sum of a list of scalars (the reduction inside the einsum). -/
def sumOps (ops : ScalarOps β) (l : List β) : β :=
  l.foldr ops.add (ops.ofN 0)

/-- `einsum("...t,...t->...", x, x.conj())` on one final-axis vector. -/
def dotSelf (ops : ScalarOps β) (v : List β) : β :=
  sumOps ops (v.map (fun t => ops.mul t (ops.conj t)))

/-- `power(x)`: the einsum reduction over the final axis, one value per
leading index (rank 0 never reaches it behind snr's dimension asserts). -/
def powerN (ops : ScalarOps β) : NdArr β → NdArr β
  | NdArr.d0 v => NdArr.d0 (ops.mul v (ops.conj v))
  | NdArr.d1 v => NdArr.d0 (dotSelf ops v)
  | NdArr.d2 m => NdArr.d1 (m.map (dotSelf ops))
  | NdArr.d3 c => NdArr.d2 (c.map (fun m => m.map (dotSelf ops)))

/-- `energy(x) = power(x) / x.shape[-1]`. -/
def energyN (ops : ScalarOps β) (x : NdArr β) : NdArr β :=
  mapN (fun t => ops.div t (ops.ofN (lastAxisLen x))) (powerN ops x)

/-- `rms(x) = sqrt(energy(x))`. -/
def rmsN (ops : ScalarOps β) (x : NdArr β) : NdArr β :=
  mapN ops.sqrt (energyN ops x)

/-- `db(x) = 20 * log10(x + 1e-12)`. -/
def dbN (ops : ScalarOps β) (x : NdArr β) : NdArr β :=
  mapN (fun t => ops.mul (ops.ofN 20) (ops.log10 (ops.add t ops.eps))) x

/-- Arithmetic mean of a list of scalars. -/
def meanOps (ops : ScalarOps β) (l : List β) : β :=
  ops.div (sumOps ops l) (ops.ofN l.length)

/-- `module.mean(x, -2)`: averaging over the second-to-last axis; on a 0-d
or 1-d value that axis does not exist and numpy/torch raise an axis
out-of-bounds error. -/
def meanAxisMinus2 (ops : ScalarOps β) : NdArr β → Except PyErr (NdArr β)
  | NdArr.d0 _ => Except.error PyErr.axisError
  | NdArr.d1 _ => Except.error PyErr.axisError
  | NdArr.d2 m => Except.ok (NdArr.d1 (m.transpose.map (meanOps ops)))
  | NdArr.d3 c => Except.ok (NdArr.d2 (c.map (fun m => m.transpose.map (meanOps ops))))

/-- `snr`'s helper `channel_mean = lambda x: module.mean(x, -2) if
len(x.shape) == 1 else x`. -/
def channelMeanN (ops : ScalarOps β) (x : NdArr β) : Except PyErr (NdArr β) :=
  if ndim x = 1 then meanAxisMinus2 ops x else Except.ok x

/-- Elementwise subtraction of two same-shape arrays (snr's success path
only ever subtracts two 0-d values). -/
def subN (ops : ScalarOps β) : NdArr β → NdArr β → NdArr β
  | NdArr.d0 a, NdArr.d0 b => NdArr.d0 (ops.sub a b)
  | NdArr.d1 a, NdArr.d1 b => NdArr.d1 (List.zipWith ops.sub a b)
  | NdArr.d2 a, NdArr.d2 b => NdArr.d2 (List.zipWith (List.zipWith ops.sub) a b)
  | NdArr.d3 a, NdArr.d3 b => NdArr.d3 (List.zipWith (List.zipWith (List.zipWith ops.sub)) a b)
  | a, _ => a

/-- A signal value as `snr` receives it: its backend (`true` = numpy array,
`false` = torch tensor) and its array. -/
structure PySig (β : Type) where
  backend : Bool
  arr : NdArr β

/-- `snr(x, noise)`: asserts both inputs are 1-D or 2-D and share a backend
type, then computes `channel_mean(db(rms(·)))` for each and subtracts. -/
def snrN (ops : ScalarOps β) (x noise : PySig β) : Except PyErr (NdArr β) :=
  if ¬ (ndim x.arr = 1 ∨ ndim x.arr = 2) then Except.error PyErr.assertionError
  else if ¬ (ndim noise.arr = 1 ∨ ndim noise.arr = 2) then Except.error PyErr.assertionError
  else if ¬ (x.backend = noise.backend) then Except.error PyErr.assertionError
  else
    match channelMeanN ops (dbN ops (rmsN ops x.arr)) with
    | Except.error e => Except.error e
    | Except.ok a =>
      match channelMeanN ops (dbN ops (rmsN ops noise.arr)) with
      | Except.error e => Except.error e
      | Except.ok b => Except.ok (subN ops a b)

/-- `random_trim(x, sample_rate, duration)`: the input is a stack of
final-axis rows (all leading axes flattened into one).  The random draw of
`randrange(0, selection_start_max)` is the explicit parameter `r`.  With
`duration_samples = int(duration * sample_rate)`: when
`len - duration_samples <= 0` each row is copied into the left-aligned
prefix of a zero row of length `duration_samples`; otherwise each row is
the slice `[r, r + duration_samples)`. -/
def randomTrim (x : List (List β)) (zero : β) (sampleRate : ℕ) (duration : ℚ)
    (r : ℕ) : List (List β) :=
  let xLen : ℕ := (x.headI).length
  let ds : ℤ := pyIntTrunc (duration * sampleRate)
  if (xLen : ℤ) - ds ≤ 0 then
    x.map (fun row => row ++ List.replicate (ds.toNat - xLen) zero)
  else
    x.map (fun row => pySlice row r (r + ds.toNat))

end Audio

section AudioIO

/-!
### io.py — load_audio

The audio file is its native rate and channel-major samples; the
third-party resampler is an abstract parameter.  `sf.read`'s time-major
layout, the `.T`, and the mono `[None, :]` promotion compose to the same
channel-major samples, which is how the non-tensor branch's data is
modelled; `torchaudio.load` returns channel-major directly.
-/

/-- An audio file on disk: native sample rate and channel-major samples. -/
structure AudioFileM (β : Type) where
  rate : ℕ
  samples : List (List β)
deriving DecidableEq, Repr

/-- `load_audio(file_path, sample_rate, tensor)`: returns
`(data, sample_rate)`.  The non-tensor branch resamples when a target rate
is given and differs from the native one, but returns the `sample_rate`
argument unchanged — `None` stays `None`.  The tensor branch substitutes
the native rate when no target is given. -/
def loadAudio (resampleFn : List (List β) → ℕ → ℕ → List (List β))
    (f : AudioFileM β) (sampleRate : Option ℕ) (tensor : Bool) :
    List (List β) × Option ℕ :=
  if tensor = false then
    let data := f.samples
    let data2 :=
      match sampleRate with
      | some sr => if f.rate ≠ sr then resampleFn data f.rate sr else data
      | none => data
    (data2, sampleRate)
  else
    let data := f.samples
    match sampleRate with
    | none => (data, some f.rate)
    | some sr => (if f.rate ≠ sr then resampleFn data f.rate sr else data, some sr)

end AudioIO

/-!
## Helper lemmas
-/

theorem pyListGet_ok {β : Type} (L : List β) (i : ℤ) (dflt : β)
    (h0 : 0 ≤ i) (hlt : i < (L.length : ℤ)) :
    pyListGet L i = Except.ok (L.getD i.toNat dflt) := by
  have hneg : ¬ i < 0 := by omega
  have hn : i.toNat < L.length := by omega
  simp only [pyListGet]
  rw [if_neg hneg, if_pos h0]
  rw [List.get?_eq_getElem?, List.getElem?_eq_getElem hn]
  simp [List.getD_eq_getElem?_getD, List.getElem?_eq_getElem hn]

theorem pyListGet_error_eq {β : Type} (L : List β) (i : ℤ) (e : PyErr)
    (h : pyListGet L i = Except.error e) : e = PyErr.indexError := by
  simp only [pyListGet] at h
  by_cases h0 : (0 : ℤ) ≤ if i < 0 then i + L.length else i
  · rw [if_pos h0] at h
    rcases hget : L.get? (if i < 0 then i + (L.length : ℤ) else i).toNat with _ | x <;>
      rw [hget] at h
    · injection h with h2
      exact h2.symm
    · simp at h
  · rw [if_neg h0] at h
    injection h with h2
    exact h2.symm

theorem updateCache_error {α : Type} (ds : HDF5DatasetM α) (i : ℤ) (e : PyErr)
    (h : updateCache ds i = Except.error e) : e = PyErr.indexError := by
  unfold updateCache at h
  rcases hget : pyListGet ds.groups (i / ds.groupBatchLen) with e2 | g <;>
    rw [hget] at h
  · cases h
    exact pyListGet_error_eq _ _ _ hget
  · cases h

theorem getitemCore_no_runtime {α : Type} (ds : HDF5DatasetM α) (l : List ℤ) (m : HMsg) :
    getitemCore ds l ≠ Except.error (PyErr.runtimeError m) := by
  intro h
  unfold getitemCore at h
  split at h
  · next e heq =>
      injection h with h2
      by_cases hin : inCache ds l.headI
      · rw [if_pos hin] at heq
        cases heq
      · rw [if_neg hin] at heq
        have he := updateCache_error ds l.headI e heq
        rw [he] at h2
        cases h2
  · next ds2 heq =>
      split at h
      · cases h
      · injection h with h2
        cases h2

/-!
## Claim theorems
-/

/-- C5 (amended): for every container dataset, `__getitem__` fails with
InvalidInput (a RuntimeError) exactly as follows — a non-list index fails
as "must be sampled by a BatchLoader"; a list longer than
`group_batch_len` fails as "reduce the batch size"; a nonempty list whose
length does not evenly divide `group_batch_len` fails as "modify the batch
size"; the empty list instead raises ZeroDivisionError (from
`group_batch_len % len(idx)`); and no other condition on the index raises
the InvalidInput errors. -/
theorem hdf5_getitem_error_contract {α : Type} (ds : HDF5DatasetM α) :
    (∀ i : ℤ, getitem ds (PyIndex.pyInt i) =
      Except.error (PyErr.runtimeError HMsg.notBatchLoader)) ∧
    (∀ l : List ℤ, ds.groupBatchLen < l.length →
      getitem ds (PyIndex.pyList l) =
        Except.error (PyErr.runtimeError HMsg.batchTooLarge)) ∧
    (getitem ds (PyIndex.pyList []) = Except.error PyErr.zeroDivisionError) ∧
    (∀ l : List ℤ, l ≠ [] → l.length ≤ ds.groupBatchLen →
      ¬ (l.length ∣ ds.groupBatchLen) →
      getitem ds (PyIndex.pyList l) =
        Except.error (PyErr.runtimeError HMsg.notDivider)) ∧
    (∀ l : List ℤ, l ≠ [] → l.length ≤ ds.groupBatchLen →
      l.length ∣ ds.groupBatchLen → ∀ m : HMsg,
      getitem ds (PyIndex.pyList l) ≠ Except.error (PyErr.runtimeError m)) := by
  refine ⟨fun i => rfl, fun l hl => ?_, ?_, fun l hne hlen hdvd => ?_,
    fun l hne hlen hdvd m hcontra => ?_⟩
  · simp only [getitem]
    rw [if_pos hl]
  · simp only [getitem]
    rw [if_neg (by simp : ¬ ds.groupBatchLen < List.length ([] : List ℤ))]
    rw [if_pos (by simp : List.length ([] : List ℤ) = 0)]
  · have hpos : 0 < l.length := List.length_pos.mpr hne
    have h3 : ds.groupBatchLen % l.length ≠ 0 := fun hmod =>
      hdvd (Nat.dvd_of_mod_eq_zero hmod)
    simp only [getitem]
    rw [if_neg (not_lt.mpr hlen), if_neg (by omega : ¬ l.length = 0), if_pos h3]
  · have hpos : 0 < l.length := List.length_pos.mpr hne
    have h3 : ¬ ds.groupBatchLen % l.length ≠ 0 := by
      obtain ⟨c, hc⟩ := hdvd
      simp [hc, Nat.mul_mod_right]
    simp only [getitem] at hcontra
    rw [if_neg (not_lt.mpr hlen), if_neg (by omega : ¬ l.length = 0), if_neg h3] at hcontra
    exact getitemCore_no_runtime ds l m hcontra

/-- C5 witness: the error contract applied to the concrete container
`dsEx` (group batch length 4), discharging each hypothesis at concrete
index lists. -/
theorem hdf5_getitem_error_contract_ok :
    getitem dsEx (PyIndex.pyInt 0) =
      Except.error (PyErr.runtimeError HMsg.notBatchLoader) ∧
    getitem dsEx (PyIndex.pyList [0, 1, 2, 3, 4]) =
      Except.error (PyErr.runtimeError HMsg.batchTooLarge) ∧
    getitem dsEx (PyIndex.pyList [0, 1, 2]) =
      Except.error (PyErr.runtimeError HMsg.notDivider) := by
  have h := hdf5_getitem_error_contract dsEx
  exact ⟨h.1 0, h.2.1 [0, 1, 2, 3, 4] (by decide),
    h.2.2.2.1 [0, 1, 2] (by decide) (by decide) (by decide)⟩

/-- C1: the claim says every `save_model(epoch)` call leaves
`checkpoints/checkpoint_<epoch>.ckpt` on disk and retains exactly the 5
most recent checkpoint files.  The source instead passes the trainer
object itself as the destination of `torch.save`, which raises
AttributeError for every state and epoch, so no checkpoint file is ever
written (and the pruning code below the call never runs). -/
theorem save_model_always_raises (st : TrainerCkpt) (epoch : ℤ) :
    saveModel st epoch = Except.error PyErr.attributeError := rfl

/-- C2: the claim says constructing the harness over a `checkpoints/`
directory holding `checkpoint_<epoch>.ckpt` files resumes from the highest
epoch.  `_get_checkpoints` globs `*.pt`, which matches no `.ckpt` file, so
the harness starts fresh at epoch 0 with an uninitialized net; and had a
`*.pt` checkpoint been present, `load_model` would have crashed accessing
`self.optimizer` before `__init__` assigns it. -/
theorem load_model_ignores_ckpt_files :
    getCheckpoints [CkptFile.mk "checkpoint_3.ckpt" 3 7 8] = [] ∧
    loadModel false [CkptFile.mk "checkpoint_3.ckpt" 3 7 8] =
      Except.ok (LoadedModel.mk 0 none) ∧
    loadModel false [CkptFile.mk "checkpoint_3.pt" 3 7 8] =
      Except.error PyErr.attributeError := by
  refine ⟨by decide, by decide, by decide⟩

/-- C3: the claim says calling the batch-loader factory with no batch size
succeeds with the container's group batch length.  The default branch
reads the local `dataset` before its assignment, so the call raises
UnboundLocalError instead. -/
theorem get_hdf5_dataloader_default_unbound :
    getHdf5Dataloader 3 8 none = Except.error PyErr.unboundLocalError := rfl

/-- C4: the claim says the cache key is the starting sample index of the
most recently loaded group (a multiple of `group_batch_len`).  After
`__getitem__([2, 3])` on a fresh two-group container with
`group_batch_len = 4`, the code has loaded group 0 but stored the raw key
2 (not a multiple of 4); index 4 — which lives in group 1 — is then
treated as a cache hit, and `__getitem__([4, 5])` silently returns rows
0-1 of group 0 (samples 0 and 1) instead of samples 4 and 5. -/
theorem hdf5_cache_key_not_group_start :
    getitem dsEx (PyIndex.pyList [2, 3]) = Except.ok (dsExAfter, [[2, 3]]) ∧
    dsExAfter.cacheIdx = some 2 ∧
    ¬ ((2 : ℤ) % 4 = 0) ∧
    inCache dsExAfter 4 = true ∧
    getitem dsExAfter (PyIndex.pyList [4, 5]) = Except.ok (dsExAfter, [[0, 1]]) := by
  refine ⟨by decide, by decide, by decide, by decide, by decide⟩

/-- C5 counterexample: the empty list is a list whose length does not
evenly divide the group batch length (of `dsEx`, which is 4), yet
`__getitem__` fails on it with ZeroDivisionError — raised by
`group_batch_len % len(idx)` — not with the claimed InvalidInput. -/
theorem hdf5_empty_index_zero_division :
    dsEx.groupBatchLen = 4 ∧
    ¬ ((List.length ([] : List ℤ)) ∣ dsEx.groupBatchLen) ∧
    getitem dsEx (PyIndex.pyList []) = Except.error PyErr.zeroDivisionError := by
  refine ⟨by decide, by decide, by decide⟩

/-- C9 counterexample: on a fresh two-group container with
`group_batch_len = 4`, the accepted boundary-spanning list `[0, 7]`
(element 0 in group 0, element 7 in group 1) returns the whole of group 0
— 4 rows — which is NOT fewer than `len(idx) = 2` as the claim states. -/
theorem hdf5_boundary_span_more_rows :
    getitem dsEx (PyIndex.pyList [0, 7]) = Except.ok
      ({ groups := [[[0, 1, 2, 3]], [[4, 5, 6, 7]]], groupBatchLen := 4,
         cache := some [[0, 1, 2, 3]], cacheIdx := some 0 }, [[0, 1, 2, 3]]) ∧
    ((0 : ℤ) / 4 = 0 ∧ (7 : ℤ) / 4 = 1) ∧
    List.length ([0, 7] : List ℤ) = 2 ∧
    ¬ (List.length [(0 : ℕ), 1, 2, 3] < List.length ([0, 7] : List ℤ)) := by
  refine ⟨by decide, ⟨by decide, by decide⟩, by decide, by decide⟩

/-- C9 (amended): on a container dataset whose cache is empty, every
accepted index list `idx` whose first element names a valid sample returns
without raising, and the result is fully determined by `idx[0]` and
`idx[-1]` alone: the cache is filled with the group numbered
`idx[0] // group_batch_len` (the group containing `idx[0]`) under the raw
key `idx[0]`, and each layout array of that group is sliced to rows
`[idx[0] % group_batch_len, (idx[-1] % group_batch_len) + 1)` — a row
count that can be fewer (even zero) or more than `len(idx)` when `idx`
spans a group boundary. -/
theorem hdf5_getitem_fresh_slice {α : Type} (ds : HDF5DatasetM α) (l : List ℤ)
    (hcache : ds.cacheIdx = none)
    (hne : l ≠ [])
    (hlen : l.length ≤ ds.groupBatchLen)
    (hdvd : l.length ∣ ds.groupBatchLen)
    (h0 : 0 ≤ l.headI)
    (hrange : l.headI < (ds.groups.length : ℤ) * ds.groupBatchLen) :
    getitem ds (PyIndex.pyList l) = Except.ok
      ({ ds with cacheIdx := some l.headI,
                 cache := some (ds.groups.getD (l.headI / ds.groupBatchLen).toNat []) },
       (ds.groups.getD (l.headI / ds.groupBatchLen).toNat []).map
         (fun arr => pySlice arr (l.headI % ds.groupBatchLen).toNat
           (l.getLastI % ds.groupBatchLen + 1).toNat)) := by
  have hpos : 0 < l.length := List.length_pos.mpr hne
  have h3 : ¬ ds.groupBatchLen % l.length ≠ 0 := by
    obtain ⟨c, hc⟩ := hdvd
    simp [hc, Nat.mul_mod_right]
  have hgblpos : 0 < (ds.groupBatchLen : ℤ) := by
    exact_mod_cast lt_of_lt_of_le hpos hlen
  simp only [getitem]
  rw [if_neg (not_lt.mpr hlen), if_neg (by omega : ¬ l.length = 0), if_neg h3]
  have hin : inCache ds l.headI = false := by simp [inCache, hcache]
  have hz0 : 0 ≤ l.headI / (ds.groupBatchLen : ℤ) :=
    Int.ediv_nonneg h0 (le_of_lt hgblpos)
  have hzlt : l.headI / (ds.groupBatchLen : ℤ) < (ds.groups.length : ℤ) :=
    (Int.ediv_lt_iff_lt_mul hgblpos).mpr hrange
  unfold getitemCore
  rw [if_neg (by simp [hin] : ¬ inCache ds l.headI = true)]
  simp only [updateCache, pyListGet_ok ds.groups _ [] hz0 hzlt]

/-- C9 witness: the fresh-cache slice semantics applied to the concrete
container `dsEx` and the index list `[2, 3]`, discharging each hypothesis
there. -/
theorem hdf5_getitem_fresh_slice_ok :
    getitem dsEx (PyIndex.pyList [2, 3]) = Except.ok (dsExAfter, [[2, 3]]) := by
  have h := hdf5_getitem_fresh_slice dsEx [2, 3] rfl (by decide) (by decide)
    (by decide) (by decide) (by decide)
  rw [h]
  decide

/-- C6: the claim says the STFT postprocessing yields axis order
(…, frames, frequency-bins) with the first frame dropped for any number of
leading axes, including none.  For a 1-D input the raw `torch.stft` result
is rank-2 and the slice `y[:, 1:]` hits the frequency axis after the
transpose: on the raw result [[0, 1], [2, 3]] (2 bins × 2 frames) the code
keeps both frames and drops frequency bin 0, while the specified
postprocessing drops frame 0; for a 2-D batch input (rank-3 raw result)
the code and the specification agree. -/
theorem stft_postprocess_1d_divergence :
    stftPost1d [[0, 1], [2, 3]] = [[2], [3]] ∧
    stftPostSpec1d [[0, 1], [2, 3]] = [[1, 3]] ∧
    stftPost1d [[0, 1], [2, 3]] ≠ stftPostSpec1d [[0, 1], [2, 3]] ∧
    (∀ raw : List (List (List ℕ)), stftPost2d raw = stftPostSpec2d raw) := by
  refine ⟨by decide, by decide, by decide, fun raw => rfl⟩

/-- C7: the claim says `snr` returns `db(rms(x)) - db(rms(noise))` for all
same-backend inputs of dimension 1 or 2.  For 1-D inputs it does; for any
2-D input, `db(rms(x))` is 1-D and the `channel_mean` helper then applies
`mean(-, -2)` to it, an axis that does not exist, so `snr` raises an axis
out-of-bounds error instead of returning — whatever the backend's scalar
arithmetic is. -/
theorem snr_crashes_on_2d_inputs (β : Type) (ops : ScalarOps β) (v w : β)
    (xs ys : List β) :
    snrN ops (PySig.mk true (NdArr.d2 [[v]])) (PySig.mk true (NdArr.d2 [[w]])) =
      Except.error PyErr.axisError ∧
    snrN ops (PySig.mk true (NdArr.d1 xs)) (PySig.mk true (NdArr.d1 ys)) =
      Except.ok (subN ops (dbN ops (rmsN ops (NdArr.d1 xs)))
        (dbN ops (rmsN ops (NdArr.d1 ys)))) := ⟨rfl, rfl⟩

/-- C8: `random_trim`'s output always has final-axis length
`int(duration * sample_rate)`: when the input is no longer than that, each
row is the input copied into the left-aligned prefix of a zero row of that
length; otherwise each row is the contiguous window starting at the random
draw `r` from `randrange(0, length - duration_samples)` (the draw's bound
is the hypothesis `hr`). -/
theorem random_trim_contract (β : Type) (zero : β) (x : List (List β)) (T sr : ℕ)
    (d : ℚ) (r : ℕ)
    (hne : x ≠ [])
    (hrect : ∀ row ∈ x, row.length = T)
    (hds : 0 ≤ pyIntTrunc (d * sr))
    (hr : 0 < (T : ℤ) - pyIntTrunc (d * sr) → (r : ℤ) < (T : ℤ) - pyIntTrunc (d * sr)) :
    (randomTrim x zero sr d r =
      if (T : ℤ) ≤ pyIntTrunc (d * sr) then
        x.map (fun row => row ++ List.replicate ((pyIntTrunc (d * sr)).toNat - T) zero)
      else x.map (fun row => pySlice row r (r + (pyIntTrunc (d * sr)).toNat))) ∧
    (∀ row ∈ randomTrim x zero sr d r,
      row.length = (pyIntTrunc (d * sr)).toNat) := by
  have hT : (x.headI).length = T := by
    obtain ⟨a, l2, rfl⟩ := List.exists_cons_of_ne_nil hne
    exact hrect a (List.mem_cons_self a l2)
  constructor
  · simp only [randomTrim]
    rw [hT]
    by_cases hcase : (T : ℤ) - pyIntTrunc (d * sr) ≤ 0
    · rw [if_pos hcase, if_pos (by omega)]
    · rw [if_neg hcase, if_neg (by omega)]
  · intro row hrow
    simp only [randomTrim] at hrow
    rw [hT] at hrow
    by_cases hcase : (T : ℤ) - pyIntTrunc (d * sr) ≤ 0
    · rw [if_pos hcase] at hrow
      obtain ⟨row0, hrow0, rfl⟩ := List.mem_map.mp hrow
      have h1 : row0.length = T := hrect _ hrow0
      simp [h1]
      omega
    · rw [if_neg hcase] at hrow
      obtain ⟨row0, hrow0, rfl⟩ := List.mem_map.mp hrow
      have h1 : row0.length = T := hrect _ hrow0
      have h2 := hr (by omega)
      simp [pySlice, h1]
      omega

/-- C8 witness: the trim contract applied to the concrete signal
`[[1, 2, 3]]` (one channel, length 3) at sample rate 2 with duration 1 s
and random draw 0, discharging each hypothesis there: the output is the
window `[1, 2]` of length `int(1 * 2) = 2`. -/
theorem random_trim_contract_ok :
    randomTrim [[1, 2, 3]] (0 : ℕ) 2 1 0 = [[1, 2]] := by
  have h := (random_trim_contract ℕ 0 [[1, 2, 3]] 3 2 1 0 (by decide) (by decide)
    (by norm_num [pyIntTrunc]) (by norm_num [pyIntTrunc])).1
  rw [h]
  norm_num [pyIntTrunc, pySlice]
  decide

/-- C10: in non-tensor mode with no target sample rate, `load_audio`
returns `None` as the second component — the file's native rate is
discarded — while tensor mode substitutes the native rate. -/
theorem load_audio_none_rate_discarded (β : Type)
    (resampleFn : List (List β) → ℕ → ℕ → List (List β)) (f : AudioFileM β) :
    (loadAudio resampleFn f none false).2 = none ∧
    (loadAudio resampleFn f none true).2 = some f.rate := ⟨rfl, rfl⟩

end TorchUtils
